import Mathlib

/-!
Verification of the cometbft-db key-value backends: a shallow embedding of the
sqlite, goleveldb and pebble backend sources (point operations, range
iterators, batches) together with theorems checking the stated contract
against them.  Byte strings are lists of naturals; a Go byte slice is an
Option so that the nil/empty distinction of the code is kept; stateful Go
methods become functions on explicit state, and a Go panic is modelled as a
`none`/`fault` result.
-/

namespace CometbftDB

/-- Content of a Go byte string. -/
abbrev Bytes := List Nat

/-- A Go byte slice: `none` models the nil slice, `some bs` a non-nil slice
(possibly of length zero).  The code distinguishes the two. -/
abbrev GoBytes := Option Bytes

/-- Go bytes.Compare: lexicographic comparison of byte strings. -/
def bytesCompare : Bytes → Bytes → Ordering
  | [], [] => .eq
  | [], _ :: _ => .lt
  | _ :: _, [] => .gt
  | a :: as, b :: bs =>
    if a < b then .lt
    else if b < a then .gt
    else bytesCompare as bs

/-- Go bytes.Compare(a, b) < 0. -/
def bytesLt (a b : Bytes) : Bool := bytesCompare a b == .lt

/-- Go bytes.Compare(a, b) <= 0. -/
def bytesLe (a b : Bytes) : Bool := !(bytesCompare a b == .gt)

/-- Go bytes.Compare(a, b) > 0. -/
def bytesGt (a b : Bytes) : Bool := bytesCompare a b == .gt

/-- Go b != nil && len(b) == 0: the guard the iterator constructors apply to
each explicit range bound. -/
def goIsEmptyKey : GoBytes → Bool
  | none => false
  | some bs => bs.length == 0

/-- Error values of the backends.  Modelled from the spec error taxonomy:
errKeyEmpty, errValueNil and errBatchClosed are declared in types.go, which is
not among the provided source files; `alreadyWritten` models the distinct
fmt.Errorf("batch already written or not properly closed") value, `txDone`
models database/sql ErrTxDone, and `engineFailure` stands for any error
surfaced by the underlying engine (including a malformed-SQL query error). -/
inductive DBError
  | keyEmpty
  | valueNil
  | batchClosed
  | alreadyWritten
  | txDone
  | engineFailure
  deriving DecidableEq

/-- The kv table: rows of (key, value).  The table has a unique primary key
and the code always reads it with ORDER BY key, so the state is kept as a
list in ascending key order and a plain SELECT returns the list itself. -/
abbrev KVStore := List (Bytes × Bytes)

/-- SELECT value FROM kv WHERE key = k (first matching row). -/
def kvLookup (k : Bytes) : KVStore → Option Bytes
  | [] => none
  | (k', v') :: rest => if k = k' then some v' else kvLookup k rest

/-- INSERT OR REPLACE INTO kv (key, value): replace the row whose key matches,
otherwise insert keeping ascending key order. -/
def kvInsert (k v : Bytes) : KVStore → KVStore
  | [] => [(k, v)]
  | (k', v') :: rest =>
    match bytesCompare k k' with
    | .lt => (k, v) :: (k', v') :: rest
    | .eq => (k, v) :: rest
    | .gt => (k', v') :: kvInsert k v rest

/-- DELETE FROM kv WHERE key = k: every row with that key is removed. -/
def kvDelete (k : Bytes) : KVStore → KVStore
  | [] => []
  | (k', v') :: rest =>
    if k' = k then kvDelete k rest else (k', v') :: kvDelete k rest

/-- SQLiteDB.Get of the default build of sqlite.go (same code in the modernc
variant): empty key rejected; a missing row yields the nil slice and no
error; a zero-length stored value is normalised to the empty non-nil slice
(the code comment reads: when value is empty, return a fresh empty slice
instead of nil). -/
def SQLiteDB.get (st : KVStore) (key : Bytes) : Except DBError GoBytes :=
  if key.length == 0 then .error .keyEmpty
  else
    match kvLookup key st with
    | none => .ok none
    | some value =>
      if value.length == 0 then .ok (some [])
      else .ok (some value)

/-- SQLiteDB.Get of the sqlite-build-tagged variant (second half of
sqlite.go): identical except that a zero-length stored value is returned as
the nil slice, collapsing present-and-empty into absent. -/
def SQLiteTagged.get (st : KVStore) (key : Bytes) : Except DBError GoBytes :=
  if key.length == 0 then .error .keyEmpty
  else
    match kvLookup key st with
    | none => .ok none
    | some value =>
      if value.length == 0 then .ok none
      else .ok (some value)

/-- SQLiteDB.Has: SELECT COUNT from kv WHERE key = k, compared with zero. -/
def SQLiteDB.has (st : KVStore) (key : Bytes) : Except DBError Bool :=
  if key.length == 0 then .error .keyEmpty
  else .ok (kvLookup key st).isSome

/-- SQLiteDB.Has of the sqlite-build-tagged variant: same COUNT query. -/
def SQLiteTagged.has (st : KVStore) (key : Bytes) : Except DBError Bool :=
  if key.length == 0 then .error .keyEmpty
  else .ok (kvLookup key st).isSome

/-- SQLiteDB.Set: empty key and nil value rejected, then INSERT OR REPLACE. -/
def SQLiteDB.set (st : KVStore) (key : Bytes) (value : GoBytes) :
    Except DBError KVStore :=
  if key.length == 0 then .error .keyEmpty
  else
    match value with
    | none => .error .valueNil
    | some v => .ok (kvInsert key v st)

/-- SQLiteDB.Delete: empty key rejected, then DELETE FROM kv WHERE key = k. -/
def SQLiteDB.delete (st : KVStore) (key : Bytes) : Except DBError KVStore :=
  if key.length == 0 then .error .keyEmpty
  else .ok (kvDelete key st)

/-- GoLevelDB.DeleteSync: empty-key guard, then the engine delete with the
durable write option; an engine failure is returned to the caller.  The
engine outcome is passed in as a parameter of the model. -/
def GoLevelDB.deleteSync (key : Bytes) (engineResult : Option DBError) :
    Option DBError :=
  if key.length == 0 then some .keyEmpty
  else
    match engineResult with
    | some e => some e
    | none => none

/-- PebbleDB.DeleteSync: empty-key guard, then the engine delete with the
durable write option; the error branch of pebble.go returns nil where the
sibling backends return the error, so an engine failure is swallowed and the
call reports success. -/
def PebbleDB.deleteSync (key : Bytes) (engineResult : Option DBError) :
    Option DBError :=
  if key.length == 0 then some .keyEmpty
  else
    match engineResult with
    | some _ => none
    | none => none

/-- Model of a database/sql Rows cursor over the materialised query result:
Next moves to the following row (closing the cursor on exhaustion, as the
library does), Scan reads the current row, Close marks the cursor closed, and
Err is unaffected by an explicit Close, all as documented for database/sql. -/
structure Rows where
  current : Option (Bytes × Bytes)
  pending : List (Bytes × Bytes)
  closed : Bool
  err : Option DBError

/-- Rows.Next: false once closed or errored; otherwise advance, closing the
cursor when the rows are exhausted. -/
def Rows.next (r : Rows) : Bool × Rows :=
  if r.closed || r.err.isSome then (false, r)
  else
    match r.pending with
    | [] => (false, { r with current := none, closed := true })
    | x :: xs => (true, { r with current := some x, pending := xs })

/-- Rows.Close: marks the cursor closed; Err is left untouched. -/
def Rows.close (r : Rows) : Rows := { r with closed := true }

/-- The sqlite iterator of sqlite_iterator.go (same code is embedded in the
first half of sqlite.go): a forward cursor, the range bounds as stored in the
struct fields, the direction, the sticky invalid flag and the row most
recently scanned into the struct. -/
structure SqliteItr where
  rows : Rows
  start : GoBytes
  stop : GoBytes
  isReverse : Bool
  isInvalid : Bool
  key : Bytes
  value : Bytes

/-- sqliteIterator.scanRow: Scan the current row into key/value; a scan
failure (closed cursor or no current row) marks the iterator invalid. -/
def SqliteItr.scanRow (itr : SqliteItr) : SqliteItr :=
  if itr.rows.closed then { itr with isInvalid := true }
  else
    match itr.rows.current with
    | some kv => { itr with key := kv.1, value := kv.2 }
    | none => { itr with isInvalid := true }

/-- sqliteIterator.next: pull one row and scan it; when no row remains the
iterator becomes invalid. -/
def SqliteItr.nextStep (itr : SqliteItr) : SqliteItr :=
  let r := itr.rows.next
  if r.1 then ({ itr with rows := r.2 }).scanRow
  else { itr with rows := r.2, isInvalid := true }

/-- sqliteIterator.first: the body is identical to next. -/
def SqliteItr.firstRow (itr : SqliteItr) : SqliteItr := itr.nextStep

/-- sqliteIterator.last: loop draining the cursor, scanning every row, so the
struct ends up holding the final row of the result set; the loop body runs at
most pending-length times, which bounds the fuel.  Note the invalid flag is
not set when the result set is empty. -/
def SqliteItr.lastAux : Nat → SqliteItr → SqliteItr
  | 0, itr => itr
  | fuel + 1, itr =>
    let r := itr.rows.next
    if r.1 then SqliteItr.lastAux fuel ({ itr with rows := r.2 }).scanRow
    else { itr with rows := r.2 }

/-- sqliteIterator.last, with the fuel instantiated. -/
def SqliteItr.lastRow (itr : SqliteItr) : SqliteItr :=
  SqliteItr.lastAux (itr.rows.pending.length + 1) itr

/-- sqliteIterator.prev (sqlite_iterator.go): unconditionally invalidates. -/
def SqliteItr.prevStep (itr : SqliteItr) : SqliteItr :=
  { itr with isInvalid := true }

/-- sqliteIterator.Valid: once invalid, stays invalid; a source error marks
invalid; a reverse iterator whose held key is below the struct start field,
or a forward one whose held key is at or past the struct end field, becomes
invalid; otherwise valid.  The flag updates are part of the result. -/
def SqliteItr.validCheck (itr : SqliteItr) : Bool × SqliteItr :=
  if itr.isInvalid then (false, itr)
  else if itr.rows.err.isSome then (false, { itr with isInvalid := true })
  else if itr.isReverse then
    match itr.start with
    | some s =>
      if bytesLt itr.key s then (false, { itr with isInvalid := true })
      else (true, itr)
    | none => (true, itr)
  else
    match itr.stop with
    | some t =>
      if bytesLe t itr.key then (false, { itr with isInvalid := true })
      else (true, itr)
    | none => (true, itr)

/-- sqliteIterator.Key: assertIsValid, then a copy of the held key; the
`none` outcome models the panic taken when the validity check fails. -/
def SqliteItr.keyAccess (itr : SqliteItr) : Option Bytes × SqliteItr :=
  let c := itr.validCheck
  if c.1 then (some c.2.key, c.2) else (none, c.2)

/-- sqliteIterator.Value: assertIsValid, then a copy of the held value. -/
def SqliteItr.valueAccess (itr : SqliteItr) : Option Bytes × SqliteItr :=
  let c := itr.validCheck
  if c.1 then (some c.2.value, c.2) else (none, c.2)

/-- sqliteIterator.Close: closes the rows cursor; nothing else changes, in
particular the invalid flag and the held row are untouched. -/
def SqliteItr.closeItr (itr : SqliteItr) : SqliteItr :=
  { itr with rows := itr.rows.close }

/-- newSQLiteIterator: store the fields, then position via last (reverse) or
first (forward). -/
def newSqliteItr (rows : Rows) (start stop : GoBytes) (isReverse : Bool) :
    SqliteItr :=
  let itr : SqliteItr :=
    { rows := rows, start := start, stop := stop, isReverse := isReverse,
      isInvalid := false, key := [], value := [] }
  if isReverse then itr.lastRow else itr.firstRow

/-- Rows of SELECT key, value FROM kv WHERE key >= start AND key < stop
ORDER BY key, with either bound absent when nil.  The same half-open range
filter describes the pebble IterOptions LowerBound/UpperBound semantics and
the goleveldb util.Range semantics. -/
def rowsInRange (st : KVStore) (start stop : GoBytes) :
    List (Bytes × Bytes) :=
  st.filter fun e =>
    (match start with | none => true | some s => bytesLe s e.1) &&
    (match stop with | none => true | some t => bytesLt e.1 t)

/-- Rows of the ReverseIterator query of the default build of sqlite.go:
SELECT key, value FROM kv WHERE key <= stop AND key > start ORDER BY key
DESC, with either clause absent when the bound is nil.  Note both bounds are
used with the wrong strictness relative to the half-open contract. -/
def sqliteRevRows (st : KVStore) (start stop : GoBytes) :
    List (Bytes × Bytes) :=
  (st.filter fun e =>
    (match stop with | none => true | some t => bytesLe e.1 t) &&
    (match start with | none => true | some s => bytesGt e.1 s)).reverse

/-- SQLiteDB.Iterator: explicit zero-length bounds rejected; the query text
is built with WHERE only on the start clause, so a nil start with a non-nil
stop produces malformed SQL and the query itself errors; otherwise a cursor
over the ascending range is wrapped. -/
def SQLiteDB.iterator (st : KVStore) (start stop : GoBytes) :
    Except DBError SqliteItr :=
  if goIsEmptyKey start || goIsEmptyKey stop then .error .keyEmpty
  else if start.isNone && stop.isSome then .error .engineFailure
  else
    .ok (newSqliteItr
      { current := none, pending := rowsInRange st start stop,
        closed := false, err := none }
      start stop false)

/-- SQLiteDB.ReverseIterator (default build of sqlite.go): explicit
zero-length bounds rejected; WHERE is attached only to the stop clause, so a
nil stop with a non-nil start produces malformed SQL and the query errors;
otherwise the descending cursor is wrapped, and the constructor receives the
bounds in swapped positions, exactly as in the source. -/
def SQLiteDB.reverseIterator (st : KVStore) (start stop : GoBytes) :
    Except DBError SqliteItr :=
  if goIsEmptyKey start || goIsEmptyKey stop then .error .keyEmpty
  else if stop.isNone && start.isSome then .error .engineFailure
  else
    .ok (newSqliteItr
      { current := none, pending := sqliteRevRows st start stop,
        closed := false, err := none }
      stop start true)

/-- Outcome of a call that can take a Go runtime fault (nil dereference). -/
inductive FaultOr (α : Type)
  | fault
  | result (a : α)

/-- The pebble engine cursor: entries already restricted to the iterator
bounds, the position, the engine error and the closed flag. -/
structure PebbleSrc where
  entries : List (Bytes × Bytes)
  pos : Option Nat
  err : Option DBError
  closed : Bool

/-- pebble Iterator.First. -/
def PebbleSrc.firstPos (s : PebbleSrc) : PebbleSrc :=
  { s with pos := if s.entries.isEmpty then none else some 0 }

/-- pebble Iterator.Last. -/
def PebbleSrc.lastPos (s : PebbleSrc) : PebbleSrc :=
  { s with pos := if s.entries.isEmpty then none else some (s.entries.length - 1) }

/-- pebble Iterator.Valid. -/
def PebbleSrc.srcValid (s : PebbleSrc) : Bool := s.pos.isSome && !s.closed

/-- pebble Iterator.Key at the current position. -/
def PebbleSrc.srcKey (s : PebbleSrc) : Bytes :=
  match s.pos with
  | some i => (s.entries.getD i ([], [])).1
  | none => []

/-- The pebbleDBIterator struct: a possibly nil pointer to the engine cursor,
the bounds, the direction and the sticky invalid flag. -/
structure PebbleItr where
  source : Option PebbleSrc
  start : GoBytes
  stop : GoBytes
  isReverse : Bool
  isInvalid : Bool

/-- pebbleDBIterator.Valid: once invalid, stays invalid; a source error or an
exhausted source marks invalid; then the same bound checks as the sqlite
iterator.  A nil source arises only after Close, which also sets the invalid
flag, so the first branch fires before the nil pointer could be touched; the
unreachable nil-source branch is modelled as not valid. -/
def PebbleItr.validCheck (itr : PebbleItr) : Bool × PebbleItr :=
  if itr.isInvalid then (false, itr)
  else
    match itr.source with
    | none => (false, itr)
    | some src =>
      if src.err.isSome then (false, { itr with isInvalid := true })
      else if !src.srcValid then (false, { itr with isInvalid := true })
      else if itr.isReverse then
        match itr.start with
        | some s =>
          if bytesLt src.srcKey s then (false, { itr with isInvalid := true })
          else (true, itr)
        | none => (true, itr)
      else
        match itr.stop with
        | some t =>
          if bytesLe t src.srcKey then (false, { itr with isInvalid := true })
          else (true, itr)
        | none => (true, itr)

/-- pebbleDBIterator.Key: assertIsValid, then a copy of the source key; the
`none` outcome models the panic taken when the validity check fails. -/
def PebbleItr.keyAccess (itr : PebbleItr) : Option Bytes × PebbleItr :=
  let c := itr.validCheck
  if c.1 then
    (match c.2.source with
     | some src => some src.srcKey
     | none => none, c.2)
  else (none, c.2)

/-- pebbleDBIterator.Close: closes the engine cursor, nils the source and the
bounds, marks the iterator invalid and returns it to the pool.  A second call
invokes Close on the nil source pointer, a runtime fault. -/
def PebbleItr.closeItr (itr : PebbleItr) : FaultOr PebbleItr :=
  match itr.source with
  | none => .fault
  | some _ =>
    .result { source := none, start := none, stop := none,
              isReverse := false, isInvalid := true }

/-- newPebbleDBIterator: position the source only when the leading bound is
absent (PebbleDB.Iterator and ReverseIterator have already positioned it). -/
def newPebbleItr (src : PebbleSrc) (start stop : GoBytes) (isReverse : Bool) :
    PebbleItr :=
  let src :=
    if isReverse then (if stop.isNone then src.lastPos else src)
    else (if start.isNone then src.firstPos else src)
  { source := some src, start := start, stop := stop,
    isReverse := isReverse, isInvalid := false }

/-- PebbleDB.Iterator: explicit zero-length bounds rejected, then a bounded
engine cursor is opened, positioned at First and wrapped. -/
def PebbleDB.iterator (st : KVStore) (start stop : GoBytes) :
    Except DBError PebbleItr :=
  if goIsEmptyKey start || goIsEmptyKey stop then .error .keyEmpty
  else
    .ok (newPebbleItr
      (PebbleSrc.firstPos
        { entries := rowsInRange st start stop, pos := none,
          err := none, closed := false })
      start stop false)

/-- GoLevelDB.Iterator: explicit zero-length bounds rejected, then a native
range cursor is wrapped.  The goleveldb iterator wrapper file is not among
the provided sources; only the guard is used by the claims, and the range
content follows the documented util.Range half-open semantics. -/
def GoLevelDB.iterator (st : KVStore) (start stop : GoBytes) :
    Except DBError (List (Bytes × Bytes)) :=
  if goIsEmptyKey start || goIsEmptyKey stop then .error .keyEmpty
  else .ok (rowsInRange st start stop)

/-- GoLevelDB.ReverseIterator: the same guard and range, reverse order. -/
def GoLevelDB.reverseIterator (st : KVStore) (start stop : GoBytes) :
    Except DBError (List (Bytes × Bytes)) :=
  if goIsEmptyKey start || goIsEmptyKey stop then .error .keyEmpty
  else .ok (rowsInRange st start stop).reverse

/-- A buffered batch operation. -/
inductive BatchOp
  | setOp (key value : Bytes)
  | delOp (key : Bytes)

/-- Effect of one buffered operation on the kv table: setOp is the INSERT OR
REPLACE statement, delOp the DELETE statement. -/
def applyOp (st : KVStore) : BatchOp → KVStore
  | .setOp k v => kvInsert k v st
  | .delOp k => kvDelete k st

/-- The sqliteBatch of the modernc variant: the buffered operations and
whether the transaction handle is set (Go b.tx != nil). -/
structure SqliteBatch where
  ops : List BatchOp
  txOpen : Bool

/-- newSQLiteBatch: empty buffer, no transaction. -/
def newSqliteBatch : SqliteBatch := { ops := [], txOpen := false }

/-- sqliteBatch.Set: guards on the key and the value but does not check
whether the batch is closed; the operation is buffered unconditionally. -/
def SqliteBatch.setB (b : SqliteBatch) (key : Bytes) (value : GoBytes) :
    Except DBError SqliteBatch :=
  if key.length == 0 then .error .keyEmpty
  else
    match value with
    | none => .error .valueNil
    | some v => .ok { b with ops := b.ops ++ [.setOp key v] }

/-- sqliteBatch.Delete: guards on the key but does not check whether the
batch is closed; the operation is buffered unconditionally. -/
def SqliteBatch.delB (b : SqliteBatch) (key : Bytes) :
    Except DBError SqliteBatch :=
  if key.length == 0 then .error .keyEmpty
  else .ok { b with ops := b.ops ++ [.delOp key] }

/-- sqliteBatch.Write: refuses when a transaction handle is already set,
otherwise begins a transaction, executes every buffered operation in order,
clears the buffer and commits; the handle stays set afterwards. -/
def SqliteBatch.writeB (b : SqliteBatch) (st : KVStore) :
    Except DBError (SqliteBatch × KVStore) :=
  if b.txOpen then .error .alreadyWritten
  else .ok ({ ops := [], txOpen := true }, b.ops.foldl applyOp st)

/-- sqliteBatch.WriteSync: like Write but the helper already commits, and the
outer commit then fails with ErrTxDone, so the call reports an error even
though the operations were durably applied. -/
def SqliteBatch.writeSyncB (b : SqliteBatch) (st : KVStore) :
    Option DBError × SqliteBatch × KVStore :=
  if b.txOpen then (some .alreadyWritten, b, st)
  else (some .txDone, { ops := [], txOpen := true }, b.ops.foldl applyOp st)

/-- sqliteBatch.Close: with a transaction handle set, roll back (after a
successful Write the transaction is already committed, so the rollback fails
with ErrTxDone and the early return skips clearing the buffer) and clear the
handle; without one, clear the operation buffer. -/
def SqliteBatch.closeB (b : SqliteBatch) : Option DBError × SqliteBatch :=
  if b.txOpen then (some .txDone, { b with txOpen := false })
  else (none, { b with ops := [] })

/-- The goLevelDBBatch: the engine write batch pointer, nil once closed; the
buffered operations stand for the engine batch content. -/
structure GoLevelBatch where
  buffered : Option (List BatchOp)

/-- newGoLevelDBBatch. -/
def newGoLevelBatch : GoLevelBatch := { buffered := some [] }

/-- goLevelDBBatch.Set: key and value guards, then the closed check, then the
operation enters the engine batch. -/
def GoLevelBatch.setB (b : GoLevelBatch) (key : Bytes) (value : GoBytes) :
    Except DBError GoLevelBatch :=
  if key.length == 0 then .error .keyEmpty
  else
    match value with
    | none => .error .valueNil
    | some v =>
      match b.buffered with
      | none => .error .batchClosed
      | some ops => .ok { buffered := some (ops ++ [.setOp key v]) }

/-- goLevelDBBatch.Delete: key guard, closed check, then buffering. -/
def GoLevelBatch.delB (b : GoLevelBatch) (key : Bytes) :
    Except DBError GoLevelBatch :=
  if key.length == 0 then .error .keyEmpty
  else
    match b.buffered with
    | none => .error .batchClosed
    | some ops => .ok { buffered := some (ops ++ [.delOp key]) }

/-- goLevelDBBatch.write: closed check, then the engine applies the batched
operations in order, then Close. -/
def GoLevelBatch.writeB (b : GoLevelBatch) (st : KVStore) :
    Except DBError (GoLevelBatch × KVStore) :=
  match b.buffered with
  | none => .error .batchClosed
  | some ops => .ok ({ buffered := none }, ops.foldl applyOp st)

/-- goLevelDBBatch.Close: resets and nils the engine batch; idempotent. -/
def GoLevelBatch.closeB (_ : GoLevelBatch) : GoLevelBatch :=
  { buffered := none }

/-- The last-write-wins reading of a buffered operation list, following the
spec words: scanning the operations in buffering order, the final Set or
Delete touching the key decides its value, and a key never touched keeps its
prior binding. -/
def specLastWrite (k : Bytes) : List BatchOp → Option Bytes → Option Bytes
  | [], prior => prior
  | .setOp k' v :: rest, prior =>
    specLastWrite k rest (if k' = k then some v else prior)
  | .delOp k' :: rest, prior =>
    specLastWrite k rest (if k' = k then none else prior)

/-- Caller-side iterator loop: while Valid, record Key and Value, then
advance the way Next does; the fuel bounds the loop. -/
def SqliteItr.collect : Nat → SqliteItr → List (Bytes × Bytes)
  | 0, _ => []
  | fuel + 1, itr =>
    let c := itr.validCheck
    if c.1 then
      (c.2.key, c.2.value) ::
        SqliteItr.collect fuel
          (if c.2.isReverse then c.2.prevStep else c.2.nextStep)
    else []

/-- Actions a caller (or the environment) can take on a live iterator: a
validity check, an advance (Next), a release (Close), or a mutation of the
store, which does not touch the materialised or bounded cursor (snapshot
semantics). -/
inductive ItrAction
  | checkValid
  | advance
  | closeAct
  | mutateStore

/-- One caller action on the sqlite iterator state. -/
def SqliteItr.step (itr : SqliteItr) : ItrAction → SqliteItr
  | .checkValid => itr.validCheck.2
  | .advance =>
    if itr.validCheck.1 then
      (if itr.validCheck.2.isReverse then itr.validCheck.2.prevStep
       else itr.validCheck.2.nextStep)
    else itr.validCheck.2
  | .closeAct => itr.closeItr
  | .mutateStore => itr

/-- A sequence of caller actions on the sqlite iterator. -/
def SqliteItr.run (itr : SqliteItr) : List ItrAction → SqliteItr
  | [] => itr
  | a :: as => (itr.step a).run as

/-- pebble Iterator.Next: step forward, exhausting past the final entry. -/
def PebbleSrc.nextPos (s : PebbleSrc) : PebbleSrc :=
  { s with pos :=
      match s.pos with
      | some i => if i + 1 < s.entries.length then some (i + 1) else none
      | none => none }

/-- pebble Iterator.Prev: step backward, exhausting before the first entry. -/
def PebbleSrc.prevPos (s : PebbleSrc) : PebbleSrc :=
  { s with pos :=
      match s.pos with
      | some i => if i = 0 then none else some (i - 1)
      | none => none }

/-- One caller action on the pebble iterator state: Valid runs the check,
Next asserts validity and then moves the engine cursor in the iterator
direction, Close is as modelled (when it faults the program aborts, so
leaving the state unchanged is conservative), and a store mutation does not
touch the bounded engine cursor. -/
def PebbleItr.step (itr : PebbleItr) : ItrAction → PebbleItr
  | .checkValid => itr.validCheck.2
  | .advance =>
    if itr.validCheck.1 then
      match itr.validCheck.2.source with
      | some src =>
        { itr.validCheck.2 with
          source := some
            (if itr.validCheck.2.isReverse then src.prevPos else src.nextPos) }
      | none => itr.validCheck.2
    else itr.validCheck.2
  | .closeAct =>
    match itr.closeItr with
    | .result itr2 => itr2
    | .fault => itr
  | .mutateStore => itr

/-- A sequence of caller actions on the pebble iterator. -/
def PebbleItr.run (itr : PebbleItr) : List ItrAction → PebbleItr
  | [] => itr
  | a :: as => (itr.step a).run as

/-- A pebble iterator whose engine cursor is exhausted: its first validity
check answers false. -/
def pebbleItrExhausted : PebbleItr :=
  { source := some { entries := [], pos := none, err := none, closed := false },
    start := none, stop := none, isReverse := false, isInvalid := false }

/-- The three-entry store of spec Scenario B. -/
def store3 : KVStore := [([97], [49]), ([98], [50]), ([99], [51])]

/-- A one-entry store. -/
def store1 : KVStore := [([97], [49])]

/-- Entries produced by the ascending sqlite iterator over the unbounded
range of store3. -/
def c2Forward : List (Bytes × Bytes) :=
  match SQLiteDB.iterator store3 none none with
  | .ok itr => SqliteItr.collect 10 itr
  | .error _ => []

/-- Entries produced by the descending sqlite iterator over the unbounded
range of store3. -/
def c2Reverse : List (Bytes × Bytes) :=
  match SQLiteDB.reverseIterator store3 none none with
  | .ok itr => SqliteItr.collect 10 itr
  | .error _ => []

/-- Key read from a released sqlite iterator over store1. -/
def c5AfterClose : Option Bytes :=
  match SQLiteDB.iterator store1 none none with
  | .ok itr => (itr.closeItr).keyAccess.1
  | .error _ => none

/-- A live pebble iterator positioned on a one-entry store. -/
def pebbleItrLive : PebbleItr :=
  { source := some { entries := [([97], [49])], pos := some 0,
                     err := none, closed := false },
    start := none, stop := none, isReverse := false, isInvalid := false }

/-- The state pebbleDBIterator.Close leaves behind. -/
def pebbleItrClosed : PebbleItr :=
  { source := none, start := none, stop := none,
    isReverse := false, isInvalid := true }

/-- The sqlite iterator produced over the empty store: invalid from birth. -/
def itrEmptyStore : SqliteItr :=
  match SQLiteDB.iterator [] none none with
  | .ok itr => itr
  | .error _ =>
    { rows := { current := none, pending := [], closed := false, err := none },
      start := none, stop := none, isReverse := false, isInvalid := true,
      key := [], value := [] }

/-- A sqlite batch discarded by Close before any write. -/
def c4SqliteDiscarded : SqliteBatch := (newSqliteBatch.closeB).2

/-- Buffering a Set on the discarded sqlite batch and then committing. -/
def c4AfterDiscardCommit : Except DBError (SqliteBatch × KVStore) := do
  let b ← c4SqliteDiscarded.setB [97] (some [49])
  b.writeB []

/-- A goleveldb batch closed by Close. -/
def goLevelBatchClosed : GoLevelBatch := newGoLevelBatch.closeB

/-- Spec Scenario D on the sqlite batch: buffer Set x 1, Delete x, Set x 2,
commit on the empty store, then Get x. -/
def scenarioD : Except DBError GoBytes := do
  let b1 ← newSqliteBatch.setB [120] (some [49])
  let b2 ← b1.delB [120]
  let b3 ← b2.setB [120] (some [50])
  let r ← b3.writeB []
  SQLiteDB.get r.2 [120]

/-- The batch of spec Scenario D, before its commit. -/
def c3WitnessBatch : SqliteBatch :=
  { ops := [.setOp [120] [49], .delOp [120], .setOp [120] [50]],
    txOpen := false }

/-! Helper lemmas about the byte comparison and the kv table. -/

theorem bytesCompare_eq_iff (a b : Bytes) : bytesCompare a b = .eq ↔ a = b := by
  induction a generalizing b with
  | nil => cases b <;> simp [bytesCompare]
  | cons x xs ih =>
    cases b with
    | nil => simp [bytesCompare]
    | cons y ys =>
      simp only [bytesCompare]
      rcases Nat.lt_trichotomy x y with h | h | h
      · simp [h, h.ne]
      · subst h
        simp [lt_irrefl, ih]
      · simp [Nat.lt_asymm h, h, h.ne']

theorem kvLookup_kvInsert_self (k v : Bytes) (st : KVStore) :
    kvLookup k (kvInsert k v st) = some v := by
  induction st with
  | nil => simp [kvInsert, kvLookup]
  | cons e rest ih =>
    rcases e with ⟨k₀, v₀⟩
    simp only [kvInsert]
    rcases hc : bytesCompare k k₀ with _ | _ | _
    · simp [kvLookup]
    · simp [kvLookup]
    · have hk : k ≠ k₀ := by
        intro hh
        rw [(bytesCompare_eq_iff k k₀).mpr hh] at hc
        cases hc
      simp [kvLookup, hk, ih]

theorem kvLookup_kvInsert_ne (k k' v : Bytes) (h : k' ≠ k) (st : KVStore) :
    kvLookup k (kvInsert k' v st) = kvLookup k st := by
  induction st with
  | nil => simp [kvInsert, kvLookup, h.symm]
  | cons e rest ih =>
    rcases e with ⟨k₀, v₀⟩
    simp only [kvInsert]
    rcases hc : bytesCompare k' k₀ with _ | _ | _
    · simp [kvLookup, h.symm]
    · have hk : k' = k₀ := (bytesCompare_eq_iff k' k₀).mp hc
      subst hk
      simp [kvLookup, h.symm]
    · simp [kvLookup, ih]

theorem kvLookup_kvDelete_self (k : Bytes) (st : KVStore) :
    kvLookup k (kvDelete k st) = none := by
  induction st with
  | nil => rfl
  | cons e rest ih =>
    rcases e with ⟨k₀, v₀⟩
    simp only [kvDelete]
    rcases eq_or_ne k₀ k with h | h
    · simpa [h] using ih
    · simp [kvLookup, h, Ne.symm h, ih]

theorem kvLookup_kvDelete_ne (k k' : Bytes) (h : k' ≠ k) (st : KVStore) :
    kvLookup k (kvDelete k' st) = kvLookup k st := by
  induction st with
  | nil => rfl
  | cons e rest ih =>
    rcases e with ⟨k₀, v₀⟩
    simp only [kvDelete, kvLookup]
    rcases eq_or_ne k₀ k' with h0 | h0
    · subst h0
      simp [Ne.symm h, ih]
    · simp [kvLookup, h0, ih]

theorem kvLookup_foldl (k : Bytes) (ops : List BatchOp) (st : KVStore) :
    kvLookup k (ops.foldl applyOp st) = specLastWrite k ops (kvLookup k st) := by
  induction ops generalizing st with
  | nil => rfl
  | cons op rest ih =>
    cases op with
    | setOp k' v =>
      show kvLookup k (rest.foldl applyOp (kvInsert k' v st)) =
        specLastWrite k rest (if k' = k then some v else kvLookup k st)
      rw [ih]
      by_cases h : k' = k
      · subst h; simp [kvLookup_kvInsert_self]
      · simp [h, kvLookup_kvInsert_ne k k' v h]
    | delOp k' =>
      show kvLookup k (rest.foldl applyOp (kvDelete k' st)) =
        specLastWrite k rest (if k' = k then none else kvLookup k st)
      rw [ih]
      by_cases h : k' = k
      · subst h; simp [kvLookup_kvDelete_self]
      · simp [h, kvLookup_kvDelete_ne k k' h]

/-! Helper lemmas about the sqlite iterator validity check. -/

theorem validCheck_cases (itr : SqliteItr) :
    itr.validCheck.1 = true ∨ itr.validCheck.2.isInvalid = true := by
  unfold SqliteItr.validCheck
  repeat' split
  all_goals simp_all

theorem validCheck_of_invalid (itr : SqliteItr) (h : itr.isInvalid = true) :
    itr.validCheck.1 = false := by
  simp [SqliteItr.validCheck, h]

theorem step_preserves_invalid (itr : SqliteItr) (a : ItrAction)
    (h : itr.isInvalid = true) : (itr.step a).isInvalid = true := by
  cases a <;>
    simp [SqliteItr.step, SqliteItr.validCheck, SqliteItr.closeItr,
      Rows.close, h]

theorem run_preserves_invalid (acts : List ItrAction) (itr : SqliteItr)
    (h : itr.isInvalid = true) : (itr.run acts).isInvalid = true := by
  induction acts generalizing itr with
  | nil => simpa [SqliteItr.run] using h
  | cons a as ih => exact ih _ (step_preserves_invalid itr a h)

/-! The same helper lemmas for the pebble iterator validity check. -/

theorem pebble_validCheck_cases (itr : PebbleItr) :
    itr.validCheck.1 = true ∨ itr.validCheck.2.isInvalid = true ∨
      itr.validCheck.2.source = none := by
  unfold PebbleItr.validCheck
  repeat' split
  all_goals simp_all

theorem pebble_validCheck_of_invalid (itr : PebbleItr)
    (h : itr.isInvalid = true) : itr.validCheck.1 = false := by
  simp [PebbleItr.validCheck, h]

theorem pebble_validCheck_false_of_dead (itr : PebbleItr)
    (h : itr.isInvalid = true ∨ itr.source = none) :
    itr.validCheck.1 = false := by
  rcases h with h | h
  · exact pebble_validCheck_of_invalid itr h
  · unfold PebbleItr.validCheck
    split <;> simp [h]

theorem pebble_step_preserves_invalid (itr : PebbleItr) (a : ItrAction)
    (h : itr.isInvalid = true) : (itr.step a).isInvalid = true := by
  cases a with
  | checkValid => simp [PebbleItr.step, PebbleItr.validCheck, h]
  | advance => simp [PebbleItr.step, PebbleItr.validCheck, h]
  | closeAct =>
    cases hs : itr.source <;>
      simp [PebbleItr.step, PebbleItr.closeItr, hs, h]
  | mutateStore => simpa [PebbleItr.step] using h

theorem pebble_step_preserves_dead (itr : PebbleItr) (a : ItrAction)
    (h : itr.isInvalid = true ∨ itr.source = none) :
    (itr.step a).isInvalid = true ∨ (itr.step a).source = none := by
  rcases h with h | h
  · exact Or.inl (pebble_step_preserves_invalid itr a h)
  · cases a with
    | checkValid =>
      right
      cases hi : itr.isInvalid <;>
        simp [PebbleItr.step, PebbleItr.validCheck, h, hi]
    | advance =>
      right
      cases hi : itr.isInvalid <;>
        simp [PebbleItr.step, PebbleItr.validCheck, h, hi]
    | closeAct =>
      right
      simp [PebbleItr.step, PebbleItr.closeItr, h]
    | mutateStore => exact Or.inr (by simpa [PebbleItr.step] using h)

theorem pebble_run_preserves_dead (acts : List ItrAction) (itr : PebbleItr)
    (h : itr.isInvalid = true ∨ itr.source = none) :
    (itr.run acts).isInvalid = true ∨ (itr.run acts).source = none := by
  induction acts generalizing itr with
  | nil => simpa [PebbleItr.run] using h
  | cons a as ih => exact ih _ (pebble_step_preserves_dead itr a h)

/-! The claims. -/

/-- Claim C1: set of a non-nil value followed by get must report the value as
present, including the zero-length value, and never as absent.  The
sqlite-build-tagged Get violates this: after Set of the empty value, the
default-build Get reports the empty non-nil slice, but the tagged Get reports
the nil slice, conflating present-and-empty with absent. -/
theorem c1_tagged_get_reports_empty_value_absent :
    SQLiteDB.set [] [97] (some []) = .ok [([97], [])] ∧
    SQLiteTagged.get [([97], [])] [97] = .ok none ∧
    SQLiteDB.get [([97], [])] [97] = .ok (some []) :=
  ⟨rfl, rfl, rfl⟩

/-- Claim C2: a descending iterator over a range must yield the same key set
as the ascending one, in reverse.  On the store of Scenario B, the ascending
sqlite iterator yields all three entries, but the descending one yields only
the smallest entry: last drains the DESC cursor down to its final (minimum)
row, and prev unconditionally invalidates on the first advance. -/
theorem c2_reverse_iterator_yields_only_minimum :
    c2Forward = [([97], [49]), ([98], [50]), ([99], [51])] ∧
    c2Reverse = [([97], [49])] ∧
    c2Reverse ≠ c2Forward.reverse :=
  ⟨rfl, rfl, by decide⟩

/-- Claim C3: a successful batch commit leaves the store in the state
obtained by applying the buffered operations sequentially in buffering order,
the last operation on a repeated key winning; Scenario D as the instance. -/
theorem c3_commit_is_sequential_last_write_wins :
    (∀ (b b' : SqliteBatch) (st st' : KVStore) (k : Bytes),
        b.writeB st = .ok (b', st') →
        kvLookup k st' = specLastWrite k b.ops (kvLookup k st)) ∧
    scenarioD = .ok (some [50]) := by
  constructor
  · intro b b' st st' k h
    unfold SqliteBatch.writeB at h
    split at h
    · exact absurd h (by simp)
    · simp only [Except.ok.injEq, Prod.mk.injEq] at h
      obtain ⟨-, h2⟩ := h
      subst h2
      exact kvLookup_foldl k b.ops st
  · rfl

/-- Witness for C3: the Scenario D batch committed on the empty store. -/
theorem c3_commit_witness :
    kvLookup [120] [([120], [50])] =
      specLastWrite [120] c3WitnessBatch.ops (kvLookup [120] []) :=
  c3_commit_is_sequential_last_write_wins.1 c3WitnessBatch
    { ops := [], txOpen := true } [] [([120], [50])] [120] rfl

/-- Claim C4: any Set, Delete or commit on a closed batch must return the
closed-batch error and change nothing.  The goleveldb batch obeys this, but
the sqlite batch does not: after a discard, Set succeeds and buffers, and a
subsequent commit applies the operation to the store; after a successful
commit, Set also succeeds instead of returning errBatchClosed. -/
theorem c4_closed_sqlite_batch_still_buffers_and_commits :
    c4SqliteDiscarded.setB [97] (some [49]) =
      .ok { ops := [BatchOp.setOp [97] [49]], txOpen := false } ∧
    c4AfterDiscardCommit = .ok ({ ops := [], txOpen := true }, [([97], [49])]) ∧
    SqliteBatch.setB { ops := [], txOpen := true } [97] (some [49]) =
      .ok { ops := [BatchOp.setOp [97] [49]], txOpen := true } ∧
    goLevelBatchClosed.setB [97] (some [49]) = .error .batchClosed ∧
    goLevelBatchClosed.delB [97] = .error .batchClosed ∧
    goLevelBatchClosed.writeB [] = .error .batchClosed :=
  ⟨rfl, rfl, rfl, rfl, rfl, rfl⟩

/-- Claim C5: reading the current key of a released iterator must signal the
misuse fault and never return data.  The sqlite iterator violates this: Close
only closes the rows cursor, leaving the invalid flag unset and Err nil, so
Key afterwards passes the validity check and returns the stale held key.  The
pebble iterator, whose Close does set the invalid flag, faults as required. -/
theorem c5_sqlite_key_after_close_returns_stale_data :
    c5AfterClose = some [97] ∧
    pebbleItrClosed.keyAccess.1 = none :=
  ⟨rfl, rfl⟩

/-- Claim C6: once an iterator reports invalid, every later validity check
reports invalid, whatever sequence of checks, advances, releases and store
mutations happens in between; proved for both cited implementations, the
sqlite iterator and the pebble iterator. -/
theorem c6_invalid_is_absorbing :
    (∀ (itr : SqliteItr) (acts : List ItrAction),
        itr.validCheck.1 = false →
        ((itr.validCheck.2).run acts).validCheck.1 = false) ∧
    (∀ (itr : PebbleItr) (acts : List ItrAction),
        itr.validCheck.1 = false →
        ((itr.validCheck.2).run acts).validCheck.1 = false) := by
  constructor
  · intro itr acts h
    have h2 : itr.validCheck.2.isInvalid = true := by
      cases validCheck_cases itr with
      | inl h1 => rw [h1] at h; exact absurd h (by simp)
      | inr h1 => exact h1
    exact validCheck_of_invalid _ (run_preserves_invalid acts _ h2)
  · intro itr acts h
    have h2 : itr.validCheck.2.isInvalid = true ∨
        itr.validCheck.2.source = none := by
      rcases pebble_validCheck_cases itr with h1 | h1
      · rw [h1] at h; exact absurd h (by simp)
      · exact h1
    exact pebble_validCheck_false_of_dead _ (pebble_run_preserves_dead acts _ h2)

/-- Witness for C6: the sqlite iterator over the empty store and the pebble
iterator with an exhausted cursor both report invalid, and still do after a
sequence of advances, checks, releases and store mutations. -/
theorem c6_invalid_witness :
    itrEmptyStore.validCheck.1 = false ∧
    ((itrEmptyStore.validCheck.2).run
        [ItrAction.advance, ItrAction.checkValid, ItrAction.mutateStore]).validCheck.1
      = false ∧
    pebbleItrExhausted.validCheck.1 = false ∧
    ((pebbleItrExhausted.validCheck.2).run
        [ItrAction.advance, ItrAction.closeAct, ItrAction.checkValid,
          ItrAction.mutateStore]).validCheck.1
      = false :=
  ⟨rfl,
   c6_invalid_is_absorbing.1 itrEmptyStore
     [ItrAction.advance, ItrAction.checkValid, ItrAction.mutateStore] rfl,
   rfl,
   c6_invalid_is_absorbing.2 pebbleItrExhausted
     [ItrAction.advance, ItrAction.closeAct, ItrAction.checkValid,
       ItrAction.mutateStore] rfl⟩

/-- Claim C7: releasing an iterator twice must be safe and repeatable.  The
pebble iterator violates this: the first Close nils the source pointer, so
the second Close dereferences the nil pointer and faults. -/
theorem c7_second_pebble_close_faults :
    pebbleItrLive.closeItr = .result pebbleItrClosed ∧
    pebbleItrClosed.closeItr = .fault :=
  ⟨rfl, rfl⟩

/-- Claim C8: every keyed operation invoked with a zero-length key, and every
iterator creation with an explicit zero-length bound, fails with the KeyEmpty
error before any mutation takes effect. -/
theorem c8_zero_length_key_rejected (st : KVStore) (v s e : GoBytes)
    (b : SqliteBatch) (g : GoLevelBatch) :
    SQLiteDB.get st [] = .error .keyEmpty ∧
    SQLiteDB.set st [] v = .error .keyEmpty ∧
    SQLiteDB.delete st [] = .error .keyEmpty ∧
    SQLiteDB.has st [] = .error .keyEmpty ∧
    SQLiteDB.iterator st (some []) e = .error .keyEmpty ∧
    SQLiteDB.iterator st s (some []) = .error .keyEmpty ∧
    SQLiteDB.reverseIterator st (some []) e = .error .keyEmpty ∧
    SQLiteDB.reverseIterator st s (some []) = .error .keyEmpty ∧
    PebbleDB.iterator st (some []) e = .error .keyEmpty ∧
    PebbleDB.iterator st s (some []) = .error .keyEmpty ∧
    GoLevelDB.iterator st (some []) e = .error .keyEmpty ∧
    GoLevelDB.iterator st s (some []) = .error .keyEmpty ∧
    GoLevelDB.reverseIterator st s (some []) = .error .keyEmpty ∧
    b.setB [] v = .error .keyEmpty ∧
    b.delB [] = .error .keyEmpty ∧
    g.setB [] v = .error .keyEmpty ∧
    g.delB [] = .error .keyEmpty := by
  refine ⟨rfl, rfl, rfl, rfl, rfl, ?_, rfl, ?_, rfl, ?_, rfl, ?_, ?_,
    rfl, rfl, rfl, rfl⟩ <;>
    simp [SQLiteDB.iterator, SQLiteDB.reverseIterator, PebbleDB.iterator,
      GoLevelDB.iterator, GoLevelDB.reverseIterator, goIsEmptyKey]

/-- Claim C9: a failure reported by the engine must be returned to the
caller.  PebbleDB.DeleteSync violates this: its error branch returns nil, so
the engine failure is replaced by success, while GoLevelDB.DeleteSync
propagates the same failure. -/
theorem c9_pebble_deletesync_swallows_engine_failure :
    PebbleDB.deleteSync [97] (some .engineFailure) = none ∧
    GoLevelDB.deleteSync [97] (some .engineFailure) = some .engineFailure :=
  ⟨rfl, rfl⟩

/-- Claim C10: Has must agree with Get on presence, in particular on keys
holding a zero-length value.  On the sqlite-build-tagged variant they
disagree: Has counts the row and answers true while Get reports the nil
slice (absent); the default build agrees with itself. -/
theorem c10_tagged_has_and_get_disagree_on_empty_value :
    SQLiteTagged.has [([97], [])] [97] = .ok true ∧
    SQLiteTagged.get [([97], [])] [97] = .ok none ∧
    SQLiteDB.has [([97], [])] [97] = .ok true ∧
    SQLiteDB.get [([97], [])] [97] = .ok (some []) :=
  ⟨rfl, rfl, rfl, rfl⟩

end CometbftDB
